import Mathlib

/-
Shallow embedding of the n3rgy-rs data puller (src/main.rs, src/models.rs,
src/cli.rs).

Modelling conventions:
- `DateTime<Utc>` / `DateTime<Local>` timestamps are `Int` seconds since the
  Unix epoch (chrono's `.timestamp()`); `chrono::Duration::days n` is
  `n * 86400` seconds and `Duration::num_days` is truncating division of the
  second count by 86400 (`Int.tdiv`, matching Rust's `/` on `i64`).
- `NaiveDate` is an `Int` counting days since the epoch, so
  `date.and_hms_opt(0,0,0).unwrap().and_utc()` (midnight UTC) is `date * 86400`.
- `f64` readings are `Float`; they are only ever copied, never computed with.
- `Utc::now()` (used for builder defaults) is an explicit `now : Int` argument.
- A Rust `.unwrap()` on an `Err`/failed value is a panic that aborts the
  process; a computation that may panic returns `RunResult`, whose `crashed`
  constructor records the panic message.
- The HTTP send/body acquisition (`send().await.unwrap()` and
  `res.text().await.unwrap()`) is modelled by an `Except String String`
  argument (the body, or the transport error that the unwraps turn into a
  panic); `serde_json::from_str::<ConsumptionOrTariff>` is modelled by a
  `parse : String → Except String ConsumptionOrTariff` argument.
- The InfluxDB client is modelled by a `write` argument giving each batched
  write's outcome, and the collaborator state is the list of issued writes.
-/

namespace N3rgy

/-- models.rs: `EnergyType` (CLI value enum). -/
inductive EnergyType where
  | Electricity
  | Gas
deriving DecidableEq

/-- models.rs: `RequestType` (CLI value enum). -/
inductive RequestType where
  | Consumption
  | Tariff
deriving DecidableEq

/-- models.rs: `Value` — one interval reading inside a `Consumption` payload.
`timestamp` is a UTC timestamp in seconds, `value` the `f64` reading, `status`
the optional status flag. -/
structure Value where
  timestamp : Int
  value : Float
  status : Option String

/-- models.rs: `Consumption` payload. The Rust field `end` is spelled `end_`
because `end` is a reserved word in Lean. -/
structure Consumption where
  resource : String
  response_timestamp : String
  start : String
  end_ : String
  granularity : String
  values : List Value
  message : Option String
  unit : String

/-- models.rs: `Price` — one price point inside a `TariffValues` window. -/
structure Price where
  timestamp : Int
  value : Float

/-- models.rs: `StandingCharge`. `start_date` is a `NaiveDate`, modelled as
days since the epoch. -/
structure StandingCharge where
  start_date : Int
  value : Float

/-- models.rs: `TariffValues` — one window of a `Tariff` payload. -/
structure TariffValues where
  standing_charges : List StandingCharge
  prices : List Price

/-- models.rs: `Tariff` payload. The Rust field `end` is spelled `end_`. -/
structure Tariff where
  resource : String
  response_timestamp : String
  start : String
  end_ : String
  values : List TariffValues

/-- Modelled from the spec: the error payload (`ApiError { message }`).
models.rs as given declares no such type, but main.rs matches a
`ConsumptionOrTariff::Error(error)` variant and calls `error.log_out()`,
so the declaration is code of this repository missing from src/. -/
structure Message where
  message : String

/-- Modelled from the spec: `log_out` surfaces the error message to the
caller (it is logged); modelled as the list of emitted log lines. The
declaration is missing from src/ but called at main.rs line 113. -/
def Message.log_out (e : Message) : List String :=
  [e.message]

/-- models.rs: `ConsumptionOrTariff`, the deserialization target for the
response body. The `Error` variant is modelled from the spec (see `Message`):
it is matched by main.rs but missing from models.rs as given. -/
inductive ConsumptionOrTariff where
  | Consumption (c : Consumption)
  | Tariff (t : Tariff)
  | Error (e : Message)

/-- models.rs: `ConsumptionReading`, the Influx point for one consumption
interval. -/
structure ConsumptionReading where
  time : Int
  consumption : Float
  measurement : String

/-- models.rs: `ConsumptionReading::new()` — builder seed. The Rust default
`time: Utc::now()` is the explicit `now` argument. -/
def ConsumptionReading.new (now : Int) : ConsumptionReading :=
  { time := now, consumption := 0.0, measurement := "default" }

/-- models.rs: builder setter `ConsumptionReading::time`. -/
def ConsumptionReading.time_set (r : ConsumptionReading) (time : Int) :
    ConsumptionReading :=
  { r with time := time }

/-- models.rs: builder setter `ConsumptionReading::consumption`. -/
def ConsumptionReading.consumption_set (r : ConsumptionReading)
    (consumption : Float) : ConsumptionReading :=
  { r with consumption := consumption }

/-- models.rs: builder setter `ConsumptionReading::measurement`. -/
def ConsumptionReading.measurement_set (r : ConsumptionReading)
    (measurement : String) : ConsumptionReading :=
  { r with measurement := measurement }

/-- models.rs: `ConsumptionReading::build()` — copies every field. -/
def ConsumptionReading.build (r : ConsumptionReading) : ConsumptionReading :=
  { time := r.time, consumption := r.consumption,
    measurement := r.measurement }

/-- models.rs: `Consumption::influx_format` — one `ConsumptionReading` per
interval value, assembled through the builder; the loop's `Vec::push` is a
fold appending one element. -/
def Consumption.influx_format (c : Consumption) (now : Int) :
    List ConsumptionReading :=
  c.values.foldl
    (fun readings value =>
      readings ++
        [((((ConsumptionReading.new now).consumption_set
              value.value).time_set
              value.timestamp).measurement_set
              c.resource).build])
    []

/-- models.rs: `TariffPrice`, the Influx point for one tariff entry. -/
structure TariffPrice where
  time : Int
  price : Float
  measurement : String
  price_type : String

/-- models.rs: `TariffPrice::new()` — builder seed; `time: Utc::now()` is the
explicit `now` argument. -/
def TariffPrice.new (now : Int) : TariffPrice :=
  { time := now, price := 0.0, measurement := "default",
    price_type := "default" }

/-- models.rs: builder setter `TariffPrice::time`. -/
def TariffPrice.time_set (r : TariffPrice) (time : Int) : TariffPrice :=
  { r with time := time }

/-- models.rs: builder setter `TariffPrice::price`. -/
def TariffPrice.price_set (r : TariffPrice) (price : Float) : TariffPrice :=
  { r with price := price }

/-- models.rs: builder setter `TariffPrice::measurement`. -/
def TariffPrice.measurement_set (r : TariffPrice) (measurement : String) :
    TariffPrice :=
  { r with measurement := measurement }

/-- models.rs: builder setter `TariffPrice::price_type`. -/
def TariffPrice.price_type_set (r : TariffPrice) (price_type : String) :
    TariffPrice :=
  { r with price_type := price_type }

/-- models.rs: `TariffPrice::build()` — copies every field. -/
def TariffPrice.build (r : TariffPrice) : TariffPrice :=
  { time := r.time, price := r.price, measurement := r.measurement,
    price_type := r.price_type }

/-- models.rs: `Tariff::influx_format` — for each `TariffValues` window, one
`TariffPrice` per price (tag "Price", timestamp preserved) followed by one per
standing charge (tag "StandingCharge", time = midnight UTC of `start_date`,
i.e. `start_date * 86400`). The nested `for`/`push` loops are folds appending
one element at a time. -/
def Tariff.influx_format (t : Tariff) (now : Int) : List TariffPrice :=
  t.values.foldl
    (fun readings value =>
      let readings1 := value.prices.foldl
        (fun rs price =>
          rs ++
            [((((TariffPrice.new now).price_set price.value).time_set
                  price.timestamp).price_type_set
                  "Price").measurement_set t.resource |>.build])
        readings
      value.standing_charges.foldl
        (fun rs stdcharge =>
          rs ++
            [((((TariffPrice.new now).price_set stdcharge.value).time_set
                  (stdcharge.start_date * 86400)).price_type_set
                  "StandingCharge").measurement_set t.resource |>.build])
        readings1)
    []

/-- main.rs: an `influxdb::WriteQuery` as produced by
`m.into_query("energy")` — the measurement name together with the point. -/
inductive WriteQuery where
  | consumption (name : String) (r : ConsumptionReading)
  | tariff (name : String) (p : TariffPrice)

/-- `InfluxDbWriteable::into_query` for `ConsumptionReading`. -/
def ConsumptionReading.into_query (r : ConsumptionReading) (name : String) :
    WriteQuery :=
  WriteQuery.consumption name r

/-- `InfluxDbWriteable::into_query` for `TariffPrice`. -/
def TariffPrice.into_query (p : TariffPrice) (name : String) : WriteQuery :=
  WriteQuery.tariff name p

/-- main.rs 100-116: `construct_influx_measurements`. Returns the readings
vector together with the log lines emitted (the `Error` arm calls
`log_out`, which is the only logging in this function). -/
def construct_influx_measurements (parsed_messages : ConsumptionOrTariff)
    (now : Int) : List WriteQuery × List String :=
  match parsed_messages with
  | ConsumptionOrTariff.Consumption consumption =>
      ((consumption.influx_format now).map (fun m => m.into_query "energy"),
        [])
  | ConsumptionOrTariff.Tariff tariff =>
      ((tariff.influx_format now).map (fun m => m.into_query "energy"), [])
  | ConsumptionOrTariff.Error error => ([], error.log_out)

/-- Outcome of a computation that may hit a Rust `panic!` (via `.unwrap()`):
either a value or the abort of the whole process with a message. -/
inductive RunResult (α : Type) where
  | ok (a : α)
  | crashed (msg : String)

/-- main.rs 118-147: `pull_usage`. `body_result` is the outcome of
`send().await` / `res.text().await` (both unwrapped: a transport error
panics); `parse` is `serde_json::from_str::<ConsumptionOrTariff>`, whose
error is also unwrapped (panics). On success the declared
`Result<ConsumptionOrTariff, serde_json::Error>` is always `Ok`. -/
def pull_usage (body_result : Except String String)
    (parse : String → Except String ConsumptionOrTariff) :
    RunResult (Except String ConsumptionOrTariff) :=
  match body_result with
  | Except.error e => RunResult.crashed e
  | Except.ok body =>
      match parse body with
      | Except.error e => RunResult.crashed e
      | Except.ok measurement => RunResult.ok (Except.ok measurement)

/-- main.rs 76-98: `pull_and_load` for one window. `fetch_result` is the
value of `pull_usage(...)`, whose `Result` is unwrapped; `write` gives the
outcome of `influx_client.query(readings)`, which is unwrapped; `storage` is
the list of batched writes issued so far. The three-armed `match` at lines
89-93 is reproduced as in the source (every arm calls
`construct_influx_measurements`). -/
def pull_and_load (fetch_result : RunResult (Except String ConsumptionOrTariff))
    (write : List WriteQuery → Except String Unit) (now : Int)
    (storage : List (List WriteQuery)) :
    RunResult (List (List WriteQuery)) :=
  match fetch_result with
  | RunResult.crashed m => RunResult.crashed m
  | RunResult.ok measurements_result =>
      match measurements_result with
      | Except.error e => RunResult.crashed e
      | Except.ok measurements =>
          let readings :=
            match measurements with
            | ConsumptionOrTariff.Error _ =>
                (construct_influx_measurements measurements now).1
            | ConsumptionOrTariff.Consumption _ =>
                (construct_influx_measurements measurements now).1
            | ConsumptionOrTariff.Tariff _ =>
                (construct_influx_measurements measurements now).1
          if readings.length > 0 then
            match write readings with
            | Except.error e => RunResult.crashed e
            | Except.ok _ => RunResult.ok (storage ++ [readings])
          else RunResult.ok storage

/-- main.rs 38-49: the `for batch in date_batches` loop, one `pull_and_load`
per window; a panic in any window aborts the run. `fetch` gives each window's
`pull_usage` outcome. -/
def run_batches
    (fetch : Int × Int → RunResult (Except String ConsumptionOrTariff))
    (write : List WriteQuery → Except String Unit) (now : Int)
    (batches : List (Int × Int)) (storage : List (List WriteQuery)) :
    RunResult (List (List WriteQuery)) :=
  match batches with
  | [] => RunResult.ok storage
  | batch :: rest =>
      match pull_and_load (fetch batch) write now storage with
      | RunResult.crashed m => RunResult.crashed m
      | RunResult.ok storage1 => run_batches fetch write now rest storage1

/-- chrono `Duration::days n` in seconds. -/
def days (n : Int) : Int :=
  n * 86400

/-- main.rs 64-74: `min_dates`, comparing the two timestamps. -/
def min_dates (d1 d2 : Int) : Int :=
  if d1 < d2 then d1
  else if d1 > d2 then d2
  else d1

/-- main.rs 33-37: the `while cli.end_date > end_date` loop of the window
splitter. The loop state is `(s, e)` = the most recently pushed batch; the
invariant `e = min_dates (s + days 90) end_date`, which main.rs establishes
before entering the loop (in the `date_difference > 90` branch the initial
`e = s + days 90` equals that minimum) and re-establishes on every iteration,
is carried as a hypothesis so that the recursion terminates. -/
def batchLoop (end_date s e : Int)
    (he : e = min_dates (s + days 90) end_date) : List (Int × Int) :=
  if end_date > e then
    (s + days 90, min_dates (s + days 90 + days 90) end_date) ::
      batchLoop end_date (s + days 90)
        (min_dates (s + days 90 + days 90) end_date) rfl
  else []
termination_by (end_date - s).toNat
decreasing_by
  unfold min_dates days at he
  unfold days
  omega

/-- main.rs 24-37, 50-61: the windowing step of `main`. `date_difference` is
`(end_date - start_date).num_days()`, i.e. truncating division of the second
count by 86400 (`Int.tdiv`, as in Rust); if it exceeds 90 the range is split
(first batch `(start, start + 90 days)`, then the `while` loop), otherwise the
whole range is the single batch. -/
def date_batches (start_date end_date : Int) : List (Int × Int) :=
  if h : 90 < Int.tdiv (end_date - start_date) 86400 then
    (start_date, start_date + days 90) ::
      batchLoop end_date start_date (start_date + days 90)
        (by
          have h91 : 91 * 86400 ≤ end_date - start_date := by
            rcases le_or_lt 0 (end_date - start_date) with h0 | h0
            · rw [Int.tdiv_eq_ediv h0 (by norm_num)] at h
              omega
            · exfalso
              have hn : 0 ≤ (-(end_date - start_date)).tdiv 86400 :=
                Int.tdiv_nonneg (by omega) (by norm_num)
              rw [Int.neg_tdiv] at hn
              omega
          unfold min_dates days
          omega)
  else [(start_date, end_date)]

/-- The windowing contract for the hard-coded `maxSpanDays = 90`, stated of
`date_batches`: the batch list is non-empty, its first window starts at
`start_date`, its last window ends at `end_date`, adjacent windows share
their boundary (contiguous), windows are ordered and non-overlapping, every
window lies inside the range, the union of the (inclusive) windows is exactly
the range, every window spans at most 90 days unless there is a single
window, and a range of at most 90 days gives the single window equal to the
input range. -/
def windowing_ok (start_date end_date : Int) : Prop :=
  date_batches start_date end_date ≠ [] ∧
  (date_batches start_date end_date).head?.map Prod.fst = some start_date ∧
  (date_batches start_date end_date).getLast?.map Prod.snd = some end_date ∧
  List.Chain' (fun a b : Int × Int => a.2 = b.1)
    (date_batches start_date end_date) ∧
  List.Pairwise (fun a b : Int × Int => a.2 ≤ b.1)
    (date_batches start_date end_date) ∧
  (∀ w ∈ date_batches start_date end_date,
    w.1 ≤ w.2 ∧ start_date ≤ w.1 ∧ w.2 ≤ end_date) ∧
  (∀ t : Int, (start_date ≤ t ∧ t ≤ end_date) ↔
    ∃ w ∈ date_batches start_date end_date, w.1 ≤ t ∧ t ≤ w.2) ∧
  (1 < (date_batches start_date end_date).length →
    ∀ w ∈ date_batches start_date end_date, w.2 - w.1 ≤ days 90) ∧
  (end_date - start_date ≤ days 90 →
    date_batches start_date end_date = [(start_date, end_date)])

/-- Test fixture: a parse function that always fails, modelling a response
body that does not deserialize into `ConsumptionOrTariff`. -/
def parse_fails : String → Except String ConsumptionOrTariff :=
  fun _ => Except.error "expected value at line 1 column 1"

/-- Test fixture: a one-value consumption payload. -/
def sampleConsumption : Consumption :=
  { resource := "electricity", response_timestamp := "2024-01-01T00:00:00Z",
    start := "202401010000", end_ := "202401020000",
    granularity := "halfhour",
    values := [{ timestamp := 1704067200, value := 1.23, status := none }],
    message := none, unit := "kWh" }

/-- Test fixture: a one-window tariff payload with two prices and one
standing charge. -/
def sampleTariff : Tariff :=
  { resource := "electricity", response_timestamp := "2024-01-01T00:00:00Z",
    start := "202401010000", end_ := "202401020000",
    values := [{ standing_charges := [{ start_date := 19723, value := 0.5 }],
                 prices := [{ timestamp := 1704067200, value := 0.3 },
                            { timestamp := 1704069000, value := 0.4 }] }] }

/-- Test fixture: a storage write that always succeeds. -/
def write_ok : List WriteQuery → Except String Unit :=
  fun _ => Except.ok ()

/-- Test fixture: a fetch oracle whose first window (starting at 0) fails at
the network layer while every later window succeeds with a non-empty
payload. -/
def fetch_fails_first :
    Int × Int → RunResult (Except String ConsumptionOrTariff) :=
  fun batch =>
    if batch.1 = 0 then RunResult.crashed "connection reset by peer"
    else
      RunResult.ok
        (Except.ok (ConsumptionOrTariff.Consumption sampleConsumption))

theorem min_dates_eq_min (d1 d2 : Int) : min_dates d1 d2 = min d1 d2 := by
  unfold min_dates
  omega

theorem tdiv_86400_gt_90 (t : Int) :
    90 < Int.tdiv t 86400 ↔ 91 * 86400 ≤ t := by
  constructor
  · intro h
    rcases le_or_lt 0 t with h0 | h0
    · rw [Int.tdiv_eq_ediv h0 (by norm_num)] at h
      omega
    · exfalso
      have hn : 0 ≤ (-t).tdiv 86400 :=
        Int.tdiv_nonneg (by omega) (by norm_num)
      rw [Int.neg_tdiv] at hn
      omega
  · intro h
    rw [Int.tdiv_eq_ediv (by omega) (by norm_num)]
    omega

theorem batchLoop_mem (end_date s e : Int)
    (he : e = min_dates (s + days 90) end_date) :
    ∀ w ∈ batchLoop end_date s e he,
      s + days 90 ≤ w.1 ∧ w.1 < end_date ∧
        w.2 = min_dates (w.1 + days 90) end_date := by
  induction s, e, he using batchLoop.induct with
  | case1 s hguard ih =>
      intro w hw
      rw [batchLoop, if_pos hguard] at hw
      rcases List.mem_cons.mp hw with hw | hw
      · subst hw
        have hlt : s + days 90 < end_date := by
          rw [min_dates_eq_min] at hguard
          omega
        exact ⟨le_refl _, hlt, rfl⟩
      · obtain ⟨h1, h2, h3⟩ := ih w hw
        have hd : 0 ≤ days 90 := by unfold days; omega
        exact ⟨by omega, h2, h3⟩
  | case2 s hguard =>
      intro w hw
      rw [batchLoop, if_neg hguard] at hw
      exact absurd hw (List.not_mem_nil w)

theorem batchLoop_chain (end_date s e : Int)
    (he : e = min_dates (s + days 90) end_date) :
    List.Chain' (fun a b : Int × Int => a.2 = b.1)
      ((s, e) :: batchLoop end_date s e he) := by
  induction s, e, he using batchLoop.induct with
  | case1 s hguard ih =>
      rw [batchLoop, if_pos hguard]
      refine List.chain'_cons.mpr ⟨?_, ih⟩
      rw [min_dates_eq_min] at hguard ⊢
      show min (s + days 90) end_date = s + days 90
      omega
  | case2 s hguard =>
      rw [batchLoop, if_neg hguard]
      exact List.chain'_singleton _

theorem batchLoop_last (end_date s e : Int)
    (he : e = min_dates (s + days 90) end_date) :
    (((s, e) :: batchLoop end_date s e he).getLast?).map Prod.snd =
      some end_date := by
  induction s, e, he using batchLoop.induct with
  | case1 s hguard ih =>
      rw [batchLoop, if_pos hguard, List.getLast?_cons_cons]
      exact ih
  | case2 s hguard =>
      rw [batchLoop, if_neg hguard]
      show some (min_dates (s + days 90) end_date) = some end_date
      rw [min_dates_eq_min] at hguard ⊢
      congr 1
      omega

theorem chain_cover :
    ∀ (l : List (Int × Int)) (w0 : Int × Int),
      List.Chain' (fun a b : Int × Int => a.2 = b.1) (w0 :: l) →
      ∀ t : Int, w0.1 ≤ t →
        (∀ wlast, (w0 :: l).getLast? = some wlast → t ≤ wlast.2) →
        ∃ w ∈ w0 :: l, w.1 ≤ t ∧ t ≤ w.2 := by
  intro l
  induction l with
  | nil =>
      intro w0 _ t h1 h2
      exact ⟨w0, List.mem_cons_self w0 [], h1, h2 w0 rfl⟩
  | cons w1 rest ih =>
      intro w0 hc t h1 h2
      rcases le_or_lt t w0.2 with h | h
      · exact ⟨w0, List.mem_cons_self w0 _, h1, h⟩
      · have hlink : w0.2 = w1.1 := (List.chain'_cons.mp hc).1
        have hc1 := (List.chain'_cons.mp hc).2
        obtain ⟨w, hw, hwa, hwb⟩ :=
          ih w1 hc1 t (by omega)
            (fun wlast hl => h2 wlast (by rw [List.getLast?_cons_cons]; exact hl))
        exact ⟨w, List.mem_cons_of_mem w0 hw, hwa, hwb⟩

theorem chain_pairwise :
    ∀ l : List (Int × Int),
      List.Chain' (fun a b : Int × Int => a.2 = b.1) l →
      (∀ w ∈ l, w.1 ≤ w.2) →
      List.Pairwise (fun a b : Int × Int => a.2 ≤ b.1) l := by
  intro l
  induction l with
  | nil => intro _ _; exact List.Pairwise.nil
  | cons w0 tail ih =>
      intro hc hwf
      cases tail with
      | nil => simp
      | cons w1 rest =>
          have hlink : w0.2 = w1.1 := (List.chain'_cons.mp hc).1
          have hc1 := (List.chain'_cons.mp hc).2
          have hp1 : List.Pairwise (fun a b : Int × Int => a.2 ≤ b.1)
              (w1 :: rest) :=
            ih hc1 (fun w hw => hwf w (List.mem_cons_of_mem w0 hw))
          refine List.pairwise_cons.mpr ⟨?_, hp1⟩
          intro b hb
          rcases List.mem_cons.mp hb with hb | hb
          · subst hb
            omega
          · have h12 : w1.2 ≤ b.1 := (List.pairwise_cons.mp hp1).1 b hb
            have hw1 : w1.1 ≤ w1.2 :=
              hwf w1 (List.mem_cons_of_mem w0 (List.mem_cons_self w1 rest))
            omega

/-- C1: for every `start <= end` (and the hard-coded `maxSpanDays = 90`), the
window-splitting step produces a chronologically ordered, non-empty sequence
of contiguous, non-overlapping windows whose union covers exactly
`[start, end]`, with the last window ending exactly at `end`; every window
spans at most 90 days except possibly in the single-window case; and a range
of at most 90 days yields exactly one window equal to the input range. -/
theorem c1_windowing (start_date end_date : Int)
    (hle : start_date ≤ end_date) : windowing_ok start_date end_date := by
  unfold windowing_ok date_batches
  by_cases h : 90 < Int.tdiv (end_date - start_date) 86400
  · rw [dif_pos h]
    have h91 : 91 * 86400 ≤ end_date - start_date :=
      (tdiv_86400_gt_90 _).mp h
    have hd : days 90 = 90 * 86400 := rfl
    have hmem := batchLoop_mem end_date start_date (start_date + days 90)
    have hchain := batchLoop_chain end_date start_date (start_date + days 90)
    have hlast := batchLoop_last end_date start_date (start_date + days 90)
    -- the invariant proof used below; any proof of the same Prop is equal
    have hinv : start_date + days 90 =
        min_dates (start_date + days 90) end_date := by
      rw [min_dates_eq_min]
      omega
    have hwf : ∀ w ∈ (start_date, start_date + days 90) ::
        batchLoop end_date start_date (start_date + days 90) hinv,
        w.1 ≤ w.2 ∧ start_date ≤ w.1 ∧ w.2 ≤ end_date := by
      intro w hw
      rcases List.mem_cons.mp hw with hw | hw
      · subst hw
        constructor
        · show start_date ≤ start_date + days 90
          omega
        constructor
        · exact le_refl _
        · show start_date + days 90 ≤ end_date
          omega
      · obtain ⟨h1, h2, h3⟩ := hmem hinv w hw
        rw [min_dates_eq_min] at h3
        refine ⟨?_, ?_, ?_⟩ <;> omega
    refine ⟨List.cons_ne_nil _ _, rfl, hlast hinv, hchain hinv, ?_, hwf, ?_,
      ?_, ?_⟩
    · exact chain_pairwise _ (hchain hinv) (fun w hw => (hwf w hw).1)
    · intro t
      constructor
      · intro ⟨ht1, ht2⟩
        refine chain_cover _ _ (hchain hinv) t ht1 ?_
        intro wlast hl
        have := hlast hinv
        rw [hl] at this
        have h3 : wlast.2 = end_date := Option.some.inj this
        omega
      · intro ⟨w, hw, hw1, hw2⟩
        have := hwf w hw
        omega
    · intro _ w hw
      rcases List.mem_cons.mp hw with hw | hw
      · subst hw
        show start_date + days 90 - start_date ≤ days 90
        omega
      · obtain ⟨h1, h2, h3⟩ := hmem hinv w hw
        rw [min_dates_eq_min] at h3
        omega
    · intro hcon
      exfalso
      rw [hd] at hcon
      omega
  · rw [dif_neg h]
    have hle90 : ¬ 91 * 86400 ≤ end_date - start_date := by
      intro hcon
      exact h ((tdiv_86400_gt_90 _).mpr hcon)
    refine ⟨List.cons_ne_nil _ _, rfl, rfl, List.chain'_singleton _, ?_, ?_,
      ?_, ?_, fun _ => rfl⟩
    · simp
    · intro w hw
      rcases List.mem_cons.mp hw with hw | hw
      · subst hw
        exact ⟨hle, le_refl _, le_refl _⟩
      · exact absurd hw (List.not_mem_nil w)
    · intro t
      constructor
      · intro ⟨ht1, ht2⟩
        exact ⟨(start_date, end_date), List.mem_cons_self _ _, ht1, ht2⟩
      · intro ⟨w, hw, hw1, hw2⟩
        rcases List.mem_cons.mp hw with hw | hw
        · subst hw
          exact ⟨hw1, hw2⟩
        · exact absurd hw (List.not_mem_nil w)
    · intro hlen
      simp at hlen

/-- Witness for C1 on the concrete range `[0, 200 days]`. -/
theorem c1_windowing_witness :
    (0 : Int) ≤ 17280000 ∧ windowing_ok 0 17280000 :=
  ⟨by decide, c1_windowing 0 17280000 (by decide)⟩

/-- C4 counterexample: for the reversed range `start = 86400, end = 0` the
windowing step signals nothing and produces one (reversed) window, so one
fetch is performed — not zero, and no `InvalidRange` is surfaced (the code
has no such check). -/
theorem c4_counterexample :
    date_batches 86400 0 = [(86400, 0)] ∧ date_batches 86400 0 ≠ [] :=
  ⟨by decide, by decide⟩

/-- C4 amended: for every input range with end before start, the windowing
step signals no error at all; it returns the single window
`(start_date, end_date)` with reversed bounds, and exactly one fetch is
performed for it. -/
theorem c4_amended_no_invalid_range (start_date end_date : Int)
    (h : end_date < start_date) :
    date_batches start_date end_date = [(start_date, end_date)] := by
  unfold date_batches
  have hnot : ¬ 90 < Int.tdiv (end_date - start_date) 86400 := by
    intro hcon
    have := (tdiv_86400_gt_90 _).mp hcon
    omega
  rw [dif_neg hnot]

/-- Witness for the amended C4 at the concrete reversed range
`start = 86400, end = 0`. -/
theorem c4_amended_no_invalid_range_witness :
    (0 : Int) < 86400 ∧ date_batches 86400 0 = [(86400, 0)] :=
  ⟨by decide, c4_amended_no_invalid_range 86400 0 (by decide)⟩

/-- C10: the split decision measures the range in truncated whole days, so a
range whose true length lies strictly between 90 and 91 days is not split:
the program performs a single fetch covering the entire range (a window whose
span exceeds 90 days). -/
theorem c10_truncated_days_single_fetch (start_date end_date : Int)
    (h1 : days 90 < end_date - start_date)
    (h2 : end_date - start_date < days 91) :
    date_batches start_date end_date = [(start_date, end_date)] := by
  unfold date_batches
  have hnot : ¬ 90 < Int.tdiv (end_date - start_date) 86400 := by
    intro hcon
    have := (tdiv_86400_gt_90 _).mp hcon
    unfold days at h2
    omega
  rw [dif_neg hnot]

/-- Witness for C10 at the concrete range `[0, 90.5 days]`. -/
theorem c10_truncated_days_single_fetch_witness :
    days 90 < (7819200 : Int) - 0 ∧ (7819200 : Int) - 0 < days 91 ∧
      date_batches 0 7819200 = [(0, 7819200)] :=
  ⟨by decide, by decide,
    c10_truncated_days_single_fetch 0 7819200 (by decide) (by decide)⟩

theorem foldl_push_eq_map {α β : Type} (f : α → β) :
    ∀ (l : List α) (init : List β),
      l.foldl (fun acc x => acc ++ [f x]) init = init ++ l.map f := by
  intro l
  induction l with
  | nil => intro init; simp
  | cons x xs ih =>
      intro init
      simp only [List.foldl_cons, List.map_cons]
      rw [ih]
      simp

theorem consumption_influx_format_eq (c : Consumption) (now : Int) :
    c.influx_format now =
      c.values.map (fun v =>
        ({ time := v.timestamp, consumption := v.value,
           measurement := c.resource } : ConsumptionReading)) := by
  unfold Consumption.influx_format
  rw [foldl_push_eq_map]
  rfl

theorem tariff_influx_format_eq (t : Tariff) (now : Int) :
    t.influx_format now =
      (t.values.map (fun w =>
        w.prices.map (fun p =>
          ({ time := p.timestamp, price := p.value,
             measurement := t.resource,
             price_type := "Price" } : TariffPrice)) ++
        w.standing_charges.map (fun sc =>
          ({ time := sc.start_date * 86400, price := sc.value,
             measurement := t.resource,
             price_type := "StandingCharge" } : TariffPrice)))).flatten := by
  unfold Tariff.influx_format
  suffices h : ∀ (values : List TariffValues) (init : List TariffPrice),
      values.foldl
        (fun readings value =>
          let readings1 := value.prices.foldl
            (fun rs price =>
              rs ++
                [((((TariffPrice.new now).price_set price.value).time_set
                      price.timestamp).price_type_set
                      "Price").measurement_set t.resource |>.build])
            readings
          value.standing_charges.foldl
            (fun rs stdcharge =>
              rs ++
                [((((TariffPrice.new now).price_set stdcharge.value).time_set
                      (stdcharge.start_date * 86400)).price_type_set
                      "StandingCharge").measurement_set t.resource |>.build])
            readings1)
        init =
      init ++
        (values.map (fun w =>
          w.prices.map (fun p =>
            ({ time := p.timestamp, price := p.value,
               measurement := t.resource,
               price_type := "Price" } : TariffPrice)) ++
          w.standing_charges.map (fun sc =>
            ({ time := sc.start_date * 86400, price := sc.value,
               measurement := t.resource,
               price_type := "StandingCharge" } : TariffPrice)))).flatten by
    simpa using h t.values []
  intro values
  induction values with
  | nil => intro init; simp
  | cons w ws ih =>
      intro init
      simp only [List.foldl_cons, List.map_cons, List.flatten_cons]
      rw [foldl_push_eq_map, foldl_push_eq_map, ih]
      simp only [List.append_assoc]
      rfl

/-- C5: for every `Consumption` payload with N interval values,
`influx_format` returns exactly N `ConsumptionReading`s; the i-th reading
carries the i-th value's timestamp and numeric reading and the payload's
`resource` as measurement tag; values with a non-null `status` are still
emitted (the mapping never inspects `status`). -/
theorem c5_consumption_normalization (c : Consumption) (now : Int) :
    c.influx_format now =
      c.values.map (fun v =>
        ({ time := v.timestamp, consumption := v.value,
           measurement := c.resource } : ConsumptionReading)) ∧
    (c.influx_format now).length = c.values.length := by
  refine ⟨consumption_influx_format_eq c now, ?_⟩
  rw [consumption_influx_format_eq]
  exact List.length_map _ _

/-- C6: for every `Tariff` payload, `influx_format` emits, per
`TariffValues` window, one `TariffPrice` tagged "Price" per price with its
timestamp preserved and one `TariffPrice` tagged "StandingCharge" per
standing charge with time equal to midnight UTC of its effective date; both
carry the payload's `resource` as measurement tag, and the total count per
window is the number of prices plus the number of standing charges (so 2
prices and 1 standing charge give exactly 3 points). -/
theorem c6_tariff_normalization (t : Tariff) (now : Int) :
    t.influx_format now =
      (t.values.map (fun w =>
        w.prices.map (fun p =>
          ({ time := p.timestamp, price := p.value,
             measurement := t.resource,
             price_type := "Price" } : TariffPrice)) ++
        w.standing_charges.map (fun sc =>
          ({ time := sc.start_date * 86400, price := sc.value,
             measurement := t.resource,
             price_type := "StandingCharge" } : TariffPrice)))).flatten ∧
    (t.influx_format now).length =
      (t.values.map
        (fun w => w.prices.length + w.standing_charges.length)).sum := by
  refine ⟨tariff_influx_format_eq t now, ?_⟩
  rw [tariff_influx_format_eq]
  simp [List.length_flatten, Function.comp_def]

/-- C7: an error payload normalizes to zero storage points while its message
is surfaced to the caller via `log_out`. -/
theorem c7_api_error_zero_points (e : Message) (now : Int) :
    (construct_influx_measurements (ConsumptionOrTariff.Error e) now).1 =
      [] ∧
    (construct_influx_measurements (ConsumptionOrTariff.Error e) now).2 =
      [e.message] :=
  ⟨rfl, rfl⟩

/-- C9: normalization is a pure function of the payload alone — the
`Utc::now()` builder defaults never reach an emitted point because every
field is overwritten before `build`, so two runs at different clock values
give identical results. -/
theorem c9_normalization_deterministic (p : ConsumptionOrTariff)
    (now1 now2 : Int) :
    construct_influx_measurements p now1 =
      construct_influx_measurements p now2 := by
  cases p with
  | Consumption c =>
      simp only [construct_influx_measurements]
      rw [consumption_influx_format_eq, consumption_influx_format_eq]
  | Tariff t =>
      simp only [construct_influx_measurements]
      rw [tariff_influx_format_eq, tariff_influx_format_eq]
  | Error e => rfl

theorem pull_and_load_ok_eq (m : ConsumptionOrTariff)
    (write : List WriteQuery → Except String Unit) (now : Int)
    (storage : List (List WriteQuery)) :
    pull_and_load (RunResult.ok (Except.ok m)) write now storage =
      (if ((construct_influx_measurements m now).1).length > 0 then
        match write (construct_influx_measurements m now).1 with
        | Except.error e => RunResult.crashed e
        | Except.ok _ =>
            RunResult.ok (storage ++ [(construct_influx_measurements m now).1])
      else RunResult.ok storage) := by
  cases m <;> rfl

/-- C8: a storage write is issued exactly when normalization produced at
least one point — with zero points the storage state is unchanged and the
collaborator's outcome is irrelevant (it is not invoked); with at least one
point and a successful write, exactly one batched write containing all of the
window's points is appended. -/
theorem c8_write_iff_points (m : ConsumptionOrTariff)
    (write : List WriteQuery → Except String Unit) (now : Int)
    (storage : List (List WriteQuery)) :
    ((construct_influx_measurements m now).1 = [] →
      pull_and_load (RunResult.ok (Except.ok m)) write now storage =
        RunResult.ok storage) ∧
    ((construct_influx_measurements m now).1 ≠ [] →
      write (construct_influx_measurements m now).1 = Except.ok () →
      pull_and_load (RunResult.ok (Except.ok m)) write now storage =
        RunResult.ok (storage ++ [(construct_influx_measurements m now).1])) := by
  constructor
  · intro hempty
    rw [pull_and_load_ok_eq, hempty]
    rfl
  · intro hne hw
    rw [pull_and_load_ok_eq, if_pos (List.length_pos.mpr hne), hw]

/-- Witness for C8: an error payload yields no write even when the
collaborator would fail, and a one-value consumption payload yields exactly
one batched write with that window's point. -/
theorem c8_write_iff_points_witness :
    (construct_influx_measurements
        (ConsumptionOrTariff.Error { message := "boom" }) 0).1 = [] ∧
    pull_and_load
        (RunResult.ok (Except.ok
          (ConsumptionOrTariff.Error { message := "boom" })))
        write_ok 0 [] =
      RunResult.ok [] ∧
    (construct_influx_measurements
        (ConsumptionOrTariff.Consumption sampleConsumption) 0).1 ≠ [] ∧
    pull_and_load
        (RunResult.ok (Except.ok
          (ConsumptionOrTariff.Consumption sampleConsumption)))
        write_ok 0 [] =
      RunResult.ok
        ([] ++ [(construct_influx_measurements
            (ConsumptionOrTariff.Consumption sampleConsumption) 0).1]) := by
  have hne : (construct_influx_measurements
      (ConsumptionOrTariff.Consumption sampleConsumption) 0).1 ≠ [] := by
    have hlen : (construct_influx_measurements
        (ConsumptionOrTariff.Consumption sampleConsumption) 0).1.length =
        1 := rfl
    intro hcon
    rw [hcon] at hlen
    exact absurd hlen (by decide)
  refine ⟨rfl, ?_, hne, ?_⟩
  · exact (c8_write_iff_points (ConsumptionOrTariff.Error { message := "boom" })
      write_ok 0 []).1 rfl
  · exact (c8_write_iff_points
      (ConsumptionOrTariff.Consumption sampleConsumption)
      write_ok 0 []).2 hne rfl

/-- C2 counterexample: with a body that does not parse, `pull_usage` panics
with the parse failure description instead of returning an `Error` payload —
the run aborts. -/
theorem c2_counterexample :
    pull_usage (Except.ok "not json") parse_fails =
      RunResult.crashed "expected value at line 1 column 1" ∧
    pull_usage (Except.ok "not json") parse_fails ≠
      RunResult.ok (Except.ok (ConsumptionOrTariff.Error
        { message := "expected value at line 1 column 1" })) :=
  ⟨rfl, fun hcon => RunResult.noConfusion hcon⟩

/-- C2 amended: for every fetched response body that does not deserialize
into the expected payload shape, `pull_usage` panics with the parse failure
description (the `.unwrap()` on `serde_json::from_str`), aborting the whole
run; no `ApiError`-style payload is returned. -/
theorem c2_amended_parse_failure_crashes (body : String)
    (parse : String → Except String ConsumptionOrTariff) (e : String)
    (hp : parse body = Except.error e) :
    pull_usage (Except.ok body) parse = RunResult.crashed e := by
  simp only [pull_usage]
  rw [hp]

/-- Witness for the amended C2 at a concrete unparseable body. -/
theorem c2_amended_parse_failure_crashes_witness :
    parse_fails "not json" =
      Except.error "expected value at line 1 column 1" ∧
    pull_usage (Except.ok "not json") parse_fails =
      RunResult.crashed "expected value at line 1 column 1" :=
  ⟨rfl, c2_amended_parse_failure_crashes "not json" parse_fails
    "expected value at line 1 column 1" rfl⟩

/-- C3 counterexample: in a two-window run whose first window's fetch fails,
the whole run crashes with the fetch error — the second window is never
processed and no storage write is issued — even though the second window on
its own would succeed with one write. -/
theorem c3_counterexample :
    run_batches fetch_fails_first write_ok 0
        [(0, days 90), (days 90, days 180)] [] =
      RunResult.crashed "connection reset by peer" ∧
    run_batches fetch_fails_first write_ok 0 [(days 90, days 180)] [] =
      RunResult.ok
        [[WriteQuery.consumption "energy"
            { time := 1704067200, consumption := 1.23,
              measurement := "electricity" }]] :=
  ⟨rfl, rfl⟩

/-- C3 amended: any fetch-layer failure (network panic) or parse failure in
a window aborts the whole run at that window via panic; the remaining
windows are not processed and no per-window error is recorded — abortion is
not limited to storage-write failures. -/
theorem c3_amended_any_failure_aborts
    (fetch : Int × Int → RunResult (Except String ConsumptionOrTariff))
    (write : List WriteQuery → Except String Unit) (now : Int)
    (b : Int × Int) (rest : List (Int × Int))
    (storage : List (List WriteQuery)) (msg : String) :
    (fetch b = RunResult.crashed msg →
      run_batches fetch write now (b :: rest) storage =
        RunResult.crashed msg) ∧
    (fetch b = RunResult.ok (Except.error msg) →
      run_batches fetch write now (b :: rest) storage =
        RunResult.crashed msg) := by
  constructor
  · intro hf
    simp only [run_batches, pull_and_load]
    rw [hf]
  · intro hf
    simp only [run_batches, pull_and_load]
    rw [hf]

/-- Witness for the amended C3 on the concrete two-window run with a failing
first fetch. -/
theorem c3_amended_any_failure_aborts_witness :
    fetch_fails_first (0, days 90) =
      RunResult.crashed "connection reset by peer" ∧
    run_batches fetch_fails_first write_ok 0
        [(0, days 90), (days 90, days 180)] [] =
      RunResult.crashed "connection reset by peer" :=
  ⟨rfl, (c3_amended_any_failure_aborts fetch_fails_first write_ok 0
      (0, days 90) [(days 90, days 180)] [] "connection reset by peer").1
    rfl⟩

end N3rgy
